import Mathlib

/-!
Verification of the Diningcloud cart / pricing / checkout core.

The TypeScript source is shallowly embedded: JavaScript numbers are
modelled as exact rationals, React state updates become explicit list
passing, and the asynchronous persistence calls become boolean outcome
parameters with the constructed payloads returned as data.

Three implementations of the QR-menu page coexist in the repository and
are embedded separately:
  * `V1`     - the first component in src/unnamed/part_000 (no tax handling);
  * `V2`     - the second component in src/unnamed/part_000 (the checkout
               flow with CGST/SGST and the pay-online branch);
  * `QRMenu` - src/src/pages/QRMenuPage.tsx (the oldest variant).
`BillPage` embeds the bill view and PDF computation from
src/unnamed/part_008, `SqlTrigger` the completed-order bill trigger from
supabase/migrations/20250116100000_fixes_and_automation.sql, and
`OrdersPage` the staff status control from src/src/pages/admin/OrdersPage.tsx.
-/

namespace Diningcloud

/-- A priced variant of a menu item (`variants` array entries). -/
structure Variant where
  name : String
  price : ℚ
deriving DecidableEq

/-- An additive-priced add-on of a menu item (`add_ons` array entries). -/
structure AddOn where
  name : String
  price : ℚ
deriving DecidableEq

/-- A sellable menu item as fetched for the QR page.  `variants` and
`add_ons` are optional arrays in the source, so they are `Option (List _)`
here; JavaScript truthiness of the field corresponds to `isSome`. -/
structure MenuItem where
  id : String
  name : String
  price : ℚ
  variants : Option (List Variant)
  add_ons : Option (List AddOn)
  available : Bool
deriving DecidableEq

/-- The cart line shape shared by the two part_000 components:
`id` is the fresh client-side key, `price` the base-or-variant price
(add-on prices excluded), `total` the denormalized total field. -/
structure CartItem where
  id : String
  menuItemId : String
  name : String
  price : ℚ
  quantity : ℤ
  variant : Option Variant
  addOns : List AddOn
  total : ℚ
deriving DecidableEq

/-- Sum of the add-on prices, `addOns.reduce((sum, addon) => sum + addon.price, 0)`. -/
def addOnsTotal (addOns : List AddOn) : ℚ :=
  addOns.foldl (fun sum addon => sum + addon.price) 0

/-- The unit price of a cart line: base-or-variant price plus add-ons.
This expression appears verbatim at both add-to-cart sites
(`basePrice + addOnsTotal`) and in the quantity-update recomputation
(`item.price + item.addOns.reduce(...)`). -/
def unitPrice (item : CartItem) : ℚ :=
  item.price + addOnsTotal item.addOns

/-- Model of the JavaScript `String.prototype.trim`: drop whitespace from
both ends.  Written with structural list recursion so that concrete
instances evaluate inside the kernel. -/
def strTrim (s : String) : String :=
  ⟨((s.data.dropWhile Char.isWhitespace).reverse.dropWhile
      Char.isWhitespace).reverse⟩

/-- JavaScript guard `item.variants && item.variants.length > 0`. -/
def hasVariants (item : MenuItem) : Bool :=
  match item.variants with
  | none => false
  | some vs => decide (0 < vs.length)

/-- Aggregate of subtotal, tax amounts and grand total as computed at the
several pricing sites. -/
structure Totals where
  subtotal : ℚ
  cgstAmount : ℚ
  sgstAmount : ℚ
  grandTotal : ℚ
deriving DecidableEq

/-- The restaurant row fields consumed by the checkout flow
(`select('id, cgst_rate, sgst_rate')`); absent rates are `none`. -/
structure RestaurantRow where
  id : String
  cgst_rate : Option ℚ
  sgst_rate : Option ℚ
deriving DecidableEq

namespace V1

/-- Result of `handleAddToCart` in the first part_000 component: the new
cart plus the `setSelectedItemForVariants` signal that opens the variant
picker modal. -/
structure AddResult where
  cart : List CartItem
  selectedItemForVariants : Option MenuItem
deriving DecidableEq

/-- part_000 lines 133-162.  If the item declares variants and none was
passed, only the modal signal fires; otherwise a fresh line with quantity
1 and `total = basePrice + addOnsTotal` is appended. -/
def handleAddToCart (cart : List CartItem) (freshId : String) (item : MenuItem)
    (variant : Option Variant) (addOns : List AddOn) : AddResult :=
  if hasVariants item = true ∧ variant = none then
    { cart := cart, selectedItemForVariants := some item }
  else
    let basePrice := match variant with
      | some v => v.price
      | none => item.price
    let totalPrice := basePrice + addOnsTotal addOns
    let line : CartItem :=
      { id := freshId, menuItemId := item.id, name := item.name,
        price := basePrice, quantity := 1, variant := variant, addOns := addOns,
        total := totalPrice }
    { cart := cart ++ [line], selectedItemForVariants := none }

/-- part_000 lines 165-175.  Quantity at most 0 removes the line; a
positive quantity updates it and recomputes the stored `total` to
`(price + add-ons) * newQuantity`. -/
def updateCartItemQuantity (cart : List CartItem) (cartItemId : String)
    (newQuantity : ℤ) : List CartItem :=
  if newQuantity ≤ 0 then
    cart.filter (fun item => item.id != cartItemId)
  else
    cart.map (fun item =>
      if item.id = cartItemId then
        { item with quantity := newQuantity,
                    total := (item.price + addOnsTotal item.addOns) * (newQuantity : ℚ) }
      else item)

/-- part_000 lines 177-179: `cart.reduce((sum, item) => sum + item.total * item.quantity, 0)`. -/
def getCartTotal (cart : List CartItem) : ℚ :=
  cart.foldl (fun sum item => sum + item.total * (item.quantity : ℚ)) 0

/-- part_000 lines 181-183: sum of the line quantities. -/
def getCartItemsCount (cart : List CartItem) : ℤ :=
  cart.foldl (fun sum item => sum + item.quantity) 0

end V1

/-- Order persistence payload of the V1 and QRMenu flows (the relevant
fields of the `orders` insert; lookup ids and free-text contact fields
are elided as they carry no pricing content). -/
structure OrderPayloadV1 where
  items : List CartItem
  total : ℚ
  status : String
  source : String
  customer_name : String
deriving DecidableEq

/-- Observable outcome of the V1 submission flow: which payloads were
persisted, what the diner was told, and the resulting cart state. -/
structure SubmitResultV1 where
  orderInserted : Option OrderPayloadV1
  billInserted : Bool
  billFailureLogged : Bool
  reportedSuccess : Bool
  navigatedToBill : Bool
  errorToastShown : Bool
  cartAfter : List CartItem
deriving DecidableEq

namespace V1

/-- part_000 lines 185-246.  Guards: empty cart, blank customer name,
then the restaurant and branch lookups; the order insert error is
rethrown, while a bill insert error is only logged before the success
toast and the navigation to the bill page.  The boolean parameters stand
for the outcome of the corresponding asynchronous calls. -/
def placeOrder (cart : List CartItem) (customerName : String)
    (restaurantFound branchReady orderInsertOk billInsertOk : Bool) :
    SubmitResultV1 :=
  if cart.length = 0 then
    { orderInserted := none, billInserted := false, billFailureLogged := false,
      reportedSuccess := false, navigatedToBill := false, errorToastShown := true,
      cartAfter := cart }
  else if strTrim customerName = "" then
    { orderInserted := none, billInserted := false, billFailureLogged := false,
      reportedSuccess := false, navigatedToBill := false, errorToastShown := true,
      cartAfter := cart }
  else if restaurantFound = false then
    { orderInserted := none, billInserted := false, billFailureLogged := false,
      reportedSuccess := false, navigatedToBill := false, errorToastShown := true,
      cartAfter := cart }
  else if branchReady = false then
    { orderInserted := none, billInserted := false, billFailureLogged := false,
      reportedSuccess := false, navigatedToBill := false, errorToastShown := true,
      cartAfter := cart }
  else if orderInsertOk = false then
    { orderInserted := none, billInserted := false, billFailureLogged := false,
      reportedSuccess := false, navigatedToBill := false, errorToastShown := true,
      cartAfter := cart }
  else
    let payload : OrderPayloadV1 :=
      { items := cart, total := getCartTotal cart, status := "pending",
        source := "online", customer_name := strTrim customerName }
    { orderInserted := some payload,
      billInserted := billInsertOk,
      billFailureLogged := !billInsertOk,
      reportedSuccess := true, navigatedToBill := true, errorToastShown := false,
      cartAfter := cart }

end V1

namespace V2

/-- part_000 lines 525-537.  Identical variant guard to V1; a fresh line
with quantity 1 and `total = basePrice + addOnsTotal` is appended. -/
def handleAddToCart (cart : List CartItem) (freshId : String) (item : MenuItem)
    (variant : Option Variant) (addOns : List AddOn) : V1.AddResult :=
  if hasVariants item = true ∧ variant = none then
    { cart := cart, selectedItemForVariants := some item }
  else
    let basePrice := match variant with
      | some v => v.price
      | none => item.price
    let totalPrice := basePrice + addOnsTotal addOns
    let line : CartItem :=
      { id := freshId, menuItemId := item.id, name := item.name,
        price := basePrice, quantity := 1, variant := variant, addOns := addOns,
        total := totalPrice }
    { cart := cart ++ [line], selectedItemForVariants := none }

/-- part_000 lines 539-545.  Quantity at most 0 removes the line; a
positive quantity updates only the `quantity` field and leaves the stored
`total` untouched. -/
def updateCartItemQuantity (cart : List CartItem) (cartItemId : String)
    (newQuantity : ℤ) : List CartItem :=
  if newQuantity ≤ 0 then
    cart.filter (fun item => item.id != cartItemId)
  else
    cart.map (fun item =>
      if item.id = cartItemId then { item with quantity := newQuantity } else item)

/-- part_000 line 547: `cart.reduce((sum, item) => sum + item.total * item.quantity, 0)`. -/
def getCartSubtotal (cart : List CartItem) : ℚ :=
  cart.foldl (fun sum item => sum + item.total * (item.quantity : ℚ)) 0

/-- part_000 line 548: sum of the line quantities. -/
def getCartItemsCount (cart : List CartItem) : ℤ :=
  cart.foldl (fun sum item => sum + item.quantity) 0

/-- Tax computation at checkout submission, part_000 lines 579-584:
rates default to 0 via `|| 0`, each tax is `subtotal * rate / 100`, and
the grand total is their sum with the subtotal. -/
def checkoutTotals (subtotal : ℚ) (cgst_rate sgst_rate : Option ℚ) : Totals :=
  let cgstRate := cgst_rate.getD 0
  let sgstRate := sgst_rate.getD 0
  let cgstAmount := (subtotal * cgstRate) / 100
  let sgstAmount := (subtotal * sgstRate) / 100
  let grandTotal := subtotal + cgstAmount + sgstAmount
  { subtotal := subtotal, cgstAmount := cgstAmount, sgstAmount := sgstAmount,
    grandTotal := grandTotal }

end V2

/-- The two branches of the checkout payment choice. -/
inductive PaymentMethod where
  | pay_online
  | pay_at_counter
deriving DecidableEq

/-- A cart line as serialized into the order payload by the V2 flow,
which strips the client-side `id` via `cart.map(({ id, ...rest }) => rest)`. -/
structure CartItemData where
  menuItemId : String
  name : String
  price : ℚ
  quantity : ℤ
  variant : Option Variant
  addOns : List AddOn
  total : ℚ
deriving DecidableEq

/-- Drop the client-side key from a cart line. -/
def stripId (item : CartItem) : CartItemData :=
  { menuItemId := item.menuItemId, name := item.name, price := item.price,
    quantity := item.quantity, variant := item.variant, addOns := item.addOns,
    total := item.total }

/-- Order persistence payload of the V2 checkout flow. -/
structure OrderPayloadV2 where
  items : List CartItemData
  total : ℚ
  status : String
  source : String
  customer_name : String
deriving DecidableEq

/-- Payment persistence payload of the pay-online branch. -/
structure PaymentPayload where
  customer_name : String
  utr_number : String
  amount : ℚ
  status : String
deriving DecidableEq

/-- Observable outcome of the V2 submission flow.  `paymentAttempted` is
the payload the flow sends on the pay-online branch, `paymentInserted`
the one that actually persisted; the source awaits the payment insert
without inspecting its error. -/
structure SubmitResultV2 where
  orderInserted : Option OrderPayloadV2
  paymentAttempted : Option PaymentPayload
  paymentInserted : Option PaymentPayload
  reportedSuccess : Bool
  navigatedToBill : Bool
  errorToastShown : Bool
  cartAfter : List CartItem
deriving DecidableEq

namespace V2

/-- The fully blocked or failed outcome: nothing persisted, no success,
the cart untouched. -/
def failResult (cart : List CartItem) (toast : Bool) : SubmitResultV2 :=
  { orderInserted := none, paymentAttempted := none, paymentInserted := none,
    reportedSuccess := false, navigatedToBill := false, errorToastShown := toast,
    cartAfter := cart }

/-- part_000 lines 560-620.  An empty cart returns silently; a pay-online
submission without a transaction reference throws; the restaurant and
branch lookups may fail; the order stores the pre-tax subtotal under
`total`; on the pay-online branch a payment row with the grand total and
status `pending` is additionally inserted, its error ignored; success is
then reported and the diner navigated to the bill page. -/
def placeOrder (cart : List CartItem) (customerName utrNumber : String)
    (paymentMethod : PaymentMethod) (restaurantRow : Option RestaurantRow)
    (branchFound orderInsertOk paymentInsertOk : Bool) : SubmitResultV2 :=
  if cart.length = 0 then
    failResult cart false
  else if paymentMethod = PaymentMethod.pay_online ∧ strTrim utrNumber = "" then
    failResult cart true
  else
    match restaurantRow with
    | none => failResult cart true
    | some r =>
      if branchFound = false then
        failResult cart true
      else
        let subtotal := getCartSubtotal cart
        let totals := checkoutTotals subtotal r.cgst_rate r.sgst_rate
        let orderPayload : OrderPayloadV2 :=
          { items := cart.map stripId, total := subtotal, status := "pending",
            source := "online", customer_name := strTrim customerName }
        if orderInsertOk = false then
          failResult cart true
        else
          let payment : Option PaymentPayload :=
            match paymentMethod with
            | PaymentMethod.pay_online =>
                some { customer_name := strTrim customerName,
                       utr_number := strTrim utrNumber,
                       amount := totals.grandTotal, status := "pending" }
            | PaymentMethod.pay_at_counter => none
          { orderInserted := some orderPayload,
            paymentAttempted := payment,
            paymentInserted := if paymentInsertOk then payment else none,
            reportedSuccess := true, navigatedToBill := true,
            errorToastShown := false, cartAfter := cart }

end V2

namespace QRMenu

/-- The cart line shape of src/src/pages/QRMenuPage.tsx, which carries no
`menuItemId` field. -/
structure CartItem where
  id : String
  name : String
  price : ℚ
  quantity : ℤ
  variant : Option Variant
  addOns : List AddOn
  total : ℚ
deriving DecidableEq

/-- Unit price of a QRMenu cart line, the expression
`item.price + item.addOns.reduce((sum, addon) => sum + addon.price, 0)`. -/
def lineUnitPrice (item : CartItem) : ℚ :=
  item.price + addOnsTotal item.addOns

/-- QRMenuPage.tsx lines 115-136.  There is no variant-required guard: a
fresh line with quantity 1 is always appended, priced from the passed
variant if any, else the base price. -/
def addToCart (cart : List CartItem) (freshId : String) (item : MenuItem)
    (variant : Option Variant) (addOns : List AddOn) : List CartItem :=
  let basePrice := match variant with
    | some v => v.price
    | none => item.price
  let totalPrice := basePrice + addOnsTotal addOns
  let line : CartItem :=
    { id := freshId, name := item.name, price := basePrice, quantity := 1,
      variant := variant, addOns := addOns, total := totalPrice }
  cart ++ [line]

/-- QRMenuPage.tsx lines 402-404: the add button invokes `addToCart(item)`
with no variant and no add-ons. -/
def addToCartButton (cart : List CartItem) (freshId : String) (item : MenuItem) :
    List CartItem :=
  addToCart cart freshId item none []

/-- QRMenuPage.tsx lines 138-148.  Only `newQuantity === 0` removes the
line; any other quantity, negative included, is written through together
with `total = (price + add-ons) * newQuantity`. -/
def updateCartItemQuantity (cart : List CartItem) (cartItemId : String)
    (newQuantity : ℤ) : List CartItem :=
  if newQuantity = 0 then
    cart.filter (fun item => item.id != cartItemId)
  else
    cart.map (fun item =>
      if item.id = cartItemId then
        { item with quantity := newQuantity,
                    total := (item.price + addOnsTotal item.addOns) * (newQuantity : ℚ) }
      else item)

/-- QRMenuPage.tsx lines 150-152: `cart.reduce((sum, item) => sum + item.total, 0)`. -/
def getCartTotal (cart : List CartItem) : ℚ :=
  cart.foldl (fun sum item => sum + item.total) 0

/-- Order persistence payload of the QRMenu flow. -/
structure OrderPayload where
  items : List CartItem
  total : ℚ
  status : String
  source : String
  customer_name : String
deriving DecidableEq

/-- Observable outcome of the QRMenu submission flow. -/
structure SubmitResult where
  orderInserted : Option OrderPayload
  billInserted : Bool
  billFailureLogged : Bool
  reportedSuccess : Bool
  navigatedToBill : Bool
  errorToastShown : Bool
  cartAfter : List CartItem
deriving DecidableEq

/-- QRMenuPage.tsx lines 158-265.  Guards on empty cart and blank name;
the order insert error aborts with a toast; a bill insert error is only
logged before the success toast and navigation. -/
def placeOrder (cart : List CartItem) (customerName : String)
    (orderInsertOk billInsertOk : Bool) : SubmitResult :=
  if cart.length = 0 then
    { orderInserted := none, billInserted := false, billFailureLogged := false,
      reportedSuccess := false, navigatedToBill := false, errorToastShown := true,
      cartAfter := cart }
  else if strTrim customerName = "" then
    { orderInserted := none, billInserted := false, billFailureLogged := false,
      reportedSuccess := false, navigatedToBill := false, errorToastShown := true,
      cartAfter := cart }
  else if orderInsertOk = false then
    { orderInserted := none, billInserted := false, billFailureLogged := false,
      reportedSuccess := false, navigatedToBill := false, errorToastShown := true,
      cartAfter := cart }
  else
    let payload : OrderPayload :=
      { items := cart, total := getCartTotal cart, status := "pending",
        source := "qr_menu", customer_name := strTrim customerName }
    { orderInserted := some payload,
      billInserted := billInsertOk,
      billFailureLogged := !billInsertOk,
      reportedSuccess := true, navigatedToBill := true, errorToastShown := false,
      cartAfter := cart }

end QRMenu

namespace BillPage

/-- Tax recomputation of the bill screen view, part_008 lines 527-530:
`subtotal` is the stored `order.total`, rates are read live from the
restaurant with `|| 0` defaults. -/
def viewTotals (orderTotal : ℚ) (cgst_rate sgst_rate : Option ℚ) : Totals :=
  let subtotal := orderTotal
  let cgstAmount := (subtotal * cgst_rate.getD 0) / 100
  let sgstAmount := (subtotal * sgst_rate.getD 0) / 100
  let grandTotal := subtotal + cgstAmount + sgstAmount
  { subtotal := subtotal, cgstAmount := cgstAmount, sgstAmount := sgstAmount,
    grandTotal := grandTotal }

/-- Tax recomputation of the PDF generator, part_008 lines 383-389. -/
def generatePDFTotals (orderTotal : ℚ) (cgst_rate sgst_rate : Option ℚ) : Totals :=
  let subtotal := orderTotal
  let cgstRate := cgst_rate.getD 0
  let sgstRate := sgst_rate.getD 0
  let cgstAmount := (subtotal * cgstRate) / 100
  let sgstAmount := (subtotal * sgstRate) / 100
  let grandTotal := subtotal + cgstAmount + sgstAmount
  { subtotal := subtotal, cgstAmount := cgstAmount, sgstAmount := sgstAmount,
    grandTotal := grandTotal }

end BillPage

namespace SqlTrigger

/-- A row of the `bills` table as inserted by the completed-order trigger. -/
structure BillRow where
  subtotal : ℚ
  cgst_amount : ℚ
  sgst_amount : ℚ
  total : ℚ
  status : String
deriving DecidableEq

/-- The arithmetic of `create_bill_for_completed_order`
(migration 20250116100000_fixes_and_automation.sql, lines 54-60):
`COALESCE` defaults the rates to 0, each tax is `NEW.total * rate / 100`,
and the bill stores subtotal, both amounts, the grand total and status
`pending`. -/
def billRowFor (newTotal : ℚ) (cgst_rate sgst_rate : Option ℚ) : BillRow :=
  let cgst_val := (newTotal * cgst_rate.getD 0) / 100
  let sgst_val := (newTotal * sgst_rate.getD 0) / 100
  let grand_total := newTotal + cgst_val + sgst_val
  { subtotal := newTotal, cgst_amount := cgst_val, sgst_amount := sgst_val,
    total := grand_total, status := "pending" }

/-- The trigger body: a bill row is produced only when the order is newly
marked `completed`. -/
def create_bill_for_completed_order (oldStatus newStatus : String)
    (newTotal : ℚ) (cgst_rate sgst_rate : Option ℚ) : Option BillRow :=
  if newStatus = "completed" ∧ oldStatus ≠ "completed" then
    some (billRowFor newTotal cgst_rate sgst_rate)
  else
    none

end SqlTrigger

namespace OrdersPage

/-- OrdersPage.tsx line 96: the options offered by the status dropdown
for every order row, whatever its current status. -/
def orderStatuses : List String :=
  ["pending", "in_preparation", "ready", "served", "completed", "cancelled"]

/-- OrdersPage.tsx lines 68-82: the update sets `status` of the matching
row to the selected value, with no check against the current status.
Orders are modelled as rows of id and status. -/
def handleStatusChange (orders : List (String × String))
    (orderId newStatus : String) : List (String × String) :=
  orders.map (fun o => if o.1 = orderId then (o.1, newStatus) else o)

end OrdersPage

/-! Concrete fixtures for witnesses and counterexamples. -/

/-- A plain menu item with no variants and no add-ons. -/
def burger : MenuItem :=
  { id := "m1", name := "Burger", price := 150, variants := none,
    add_ons := none, available := true }

/-- A menu item declaring one variant. -/
def pizzaWithVariants : MenuItem :=
  { id := "m2", name := "Pizza", price := 100,
    variants := some [{ name := "Large", price := 200 }],
    add_ons := none, available := true }

/-- A quantity-1 cart line with unit price 10 for the part_000 cart shape. -/
def line0 : CartItem :=
  { id := "L1", menuItemId := "m1", name := "Burger", price := 10,
    quantity := 1, variant := none, addOns := [], total := 10 }

/-- A quantity-1 cart line with unit price 10 for the QRMenu cart shape. -/
def qline0 : QRMenu.CartItem :=
  { id := "L1", name := "Burger", price := 10, quantity := 1, variant := none,
    addOns := [], total := 10 }

/-- Sample restaurant with 2.5 percent CGST and SGST. -/
def restA : RestaurantRow :=
  { id := "r1", cgst_rate := some (5 / 2), sgst_rate := some (5 / 2) }

/-! Claims. -/

/-- C1: for every cart subtotal s and tax configuration with CGST rate c
and SGST rate g (each defaulting to 0 when unset), the pricing
computation used at checkout submission, on the bill view and PDF, and
in the completed-order bill trigger yields cgstAmount = s * c / 100,
sgstAmount = s * g / 100, and grandTotal = s + cgstAmount + sgstAmount. -/
theorem C1_pricing_formula (s : ℚ) (c g : Option ℚ) :
    (V2.checkoutTotals s c g).cgstAmount = s * c.getD 0 / 100 ∧
    (V2.checkoutTotals s c g).sgstAmount = s * g.getD 0 / 100 ∧
    (V2.checkoutTotals s c g).grandTotal =
      s + (V2.checkoutTotals s c g).cgstAmount +
        (V2.checkoutTotals s c g).sgstAmount ∧
    (BillPage.viewTotals s c g).cgstAmount = s * c.getD 0 / 100 ∧
    (BillPage.viewTotals s c g).sgstAmount = s * g.getD 0 / 100 ∧
    (BillPage.viewTotals s c g).grandTotal =
      s + (BillPage.viewTotals s c g).cgstAmount +
        (BillPage.viewTotals s c g).sgstAmount ∧
    (BillPage.generatePDFTotals s c g).cgstAmount = s * c.getD 0 / 100 ∧
    (BillPage.generatePDFTotals s c g).sgstAmount = s * g.getD 0 / 100 ∧
    (BillPage.generatePDFTotals s c g).grandTotal =
      s + (BillPage.generatePDFTotals s c g).cgstAmount +
        (BillPage.generatePDFTotals s c g).sgstAmount ∧
    (SqlTrigger.billRowFor s c g).cgst_amount = s * c.getD 0 / 100 ∧
    (SqlTrigger.billRowFor s c g).sgst_amount = s * g.getD 0 / 100 ∧
    (SqlTrigger.billRowFor s c g).total =
      s + (SqlTrigger.billRowFor s c g).cgst_amount +
        (SqlTrigger.billRowFor s c g).sgst_amount :=
  ⟨rfl, rfl, rfl, rfl, rfl, rfl, rfl, rfl, rfl, rfl, rfl, rfl⟩

/-- C8: for a successful checkout, running the stored order total back
through the bill-view recomputation with the unchanged tax configuration
reproduces exactly the checkout totals, and the two computations are
equal as functions of subtotal and rates. -/
theorem C8_roundtrip (cart : List CartItem) (name utr : String)
    (m : PaymentMethod) (r : RestaurantRow) (pok : Bool)
    (hcart : cart.length ≠ 0)
    (hutr : m = PaymentMethod.pay_online → strTrim utr ≠ "") :
    (V2.placeOrder cart name utr m (some r) true true pok).orderInserted.map
        (fun o => BillPage.viewTotals o.total r.cgst_rate r.sgst_rate) =
      some (V2.checkoutTotals (V2.getCartSubtotal cart) r.cgst_rate r.sgst_rate) ∧
    ∀ s : ℚ, ∀ c g : Option ℚ, BillPage.viewTotals s c g = V2.checkoutTotals s c g := by
  have h2 : ¬(m = PaymentMethod.pay_online ∧ strTrim utr = "") := by
    rintro ⟨ha, hb⟩
    exact hutr ha hb
  refine ⟨?_, fun s c g => rfl⟩
  simp [V2.placeOrder, hcart, h2]
  rfl

/-- C8 witness: a concrete successful pay-online checkout at restaurant
restA for the one-line cart. -/
theorem C8_roundtrip_witness :
    (V2.placeOrder [line0] "Alice" "U1" PaymentMethod.pay_online (some restA)
        true true true).orderInserted.map
        (fun o => BillPage.viewTotals o.total restA.cgst_rate restA.sgst_rate) =
      some (V2.checkoutTotals (V2.getCartSubtotal [line0])
        restA.cgst_rate restA.sgst_rate) :=
  (C8_roundtrip [line0] "Alice" "U1" PaymentMethod.pay_online restA true
    (by decide) (fun _ => by decide)).1

/-- C9: a checkout attempt with an empty cart creates no order (and no
payment), and leaves the cart state unchanged, regardless of the customer
details entered, in all three submission flows. -/
theorem C9_empty_cart_blocks (name utr custName qname : String)
    (m : PaymentMethod) (row : Option RestaurantRow)
    (bf ok pok rf br obk bbk qok qbk : Bool) :
    (V2.placeOrder [] name utr m row bf ok pok).orderInserted = none ∧
    (V2.placeOrder [] name utr m row bf ok pok).paymentAttempted = none ∧
    (V2.placeOrder [] name utr m row bf ok pok).cartAfter = [] ∧
    (V1.placeOrder [] custName rf br obk bbk).orderInserted = none ∧
    (V1.placeOrder [] custName rf br obk bbk).cartAfter = [] ∧
    (QRMenu.placeOrder [] qname qok qbk).orderInserted = none ∧
    (QRMenu.placeOrder [] qname qok qbk).cartAfter = [] := by
  refine ⟨?_, ?_, ?_, ?_, ?_, ?_, ?_⟩ <;>
    simp [V2.placeOrder, V2.failResult, V1.placeOrder, QRMenu.placeOrder]

/-- C5: a successful checkout persists the pre-tax cart subtotal as the
stored order total, and only the pay-online branch additionally persists
a payment whose amount is the grand total (subtotal plus CGST and SGST)
and whose status is pending. -/
theorem C5_persisted_totals (cart : List CartItem) (name utr : String)
    (m : PaymentMethod) (r : RestaurantRow)
    (hcart : cart.length ≠ 0)
    (hutr : m = PaymentMethod.pay_online → strTrim utr ≠ "") :
    (V2.placeOrder cart name utr m (some r) true true true).orderInserted.map
        OrderPayloadV2.total = some (V2.getCartSubtotal cart) ∧
    (m = PaymentMethod.pay_online →
      (V2.placeOrder cart name utr m (some r) true true true).paymentInserted =
        some ⟨strTrim name, strTrim utr,
          (V2.checkoutTotals (V2.getCartSubtotal cart) r.cgst_rate
              r.sgst_rate).grandTotal, "pending"⟩) ∧
    (m = PaymentMethod.pay_at_counter →
      (V2.placeOrder cart name utr m (some r) true true true).paymentInserted =
        none) := by
  have h2 : ¬(m = PaymentMethod.pay_online ∧ strTrim utr = "") := by
    rintro ⟨ha, hb⟩
    exact hutr ha hb
  cases m <;> simp_all [V2.placeOrder, V2.failResult, hcart]

/-- C5 witness: the concrete pay-online checkout of the one-line cart at
restaurant restA. -/
theorem C5_persisted_totals_witness :
    (V2.placeOrder [line0] "Alice" "U1" PaymentMethod.pay_online (some restA)
        true true true).orderInserted.map OrderPayloadV2.total =
      some (V2.getCartSubtotal [line0]) ∧
    (V2.placeOrder [line0] "Alice" "U1" PaymentMethod.pay_online (some restA)
        true true true).paymentInserted =
      some ⟨strTrim "Alice", strTrim "U1",
        (V2.checkoutTotals (V2.getCartSubtotal [line0]) restA.cgst_rate
            restA.sgst_rate).grandTotal, "pending"⟩ := by
  have h := C5_persisted_totals [line0] "Alice" "U1" PaymentMethod.pay_online
    restA (by decide) (fun _ => by decide)
  exact ⟨h.1, h.2.1 rfl⟩

/-- C6: in each flow, when the order insert succeeds but the dependent
bill or payment insert fails, the diner is still shown success and
navigated to the bill view, the failure being at most logged, and the
order remains persisted without the dependent record. -/
theorem C6_dependent_failure (cart : List CartItem) (qcart : List QRMenu.CartItem)
    (name utr qname : String) (r : RestaurantRow)
    (hcart : cart.length ≠ 0) (hname : strTrim name ≠ "")
    (hutr : strTrim utr ≠ "") (hqcart : qcart.length ≠ 0)
    (hqname : strTrim qname ≠ "") :
    ((V1.placeOrder cart name true true true false).reportedSuccess = true ∧
     (V1.placeOrder cart name true true true false).navigatedToBill = true ∧
     (V1.placeOrder cart name true true true false).orderInserted.isSome = true ∧
     (V1.placeOrder cart name true true true false).billInserted = false ∧
     (V1.placeOrder cart name true true true false).billFailureLogged = true) ∧
    ((V2.placeOrder cart name utr PaymentMethod.pay_online (some r) true true
        false).reportedSuccess = true ∧
     (V2.placeOrder cart name utr PaymentMethod.pay_online (some r) true true
        false).navigatedToBill = true ∧
     (V2.placeOrder cart name utr PaymentMethod.pay_online (some r) true true
        false).orderInserted.isSome = true ∧
     (V2.placeOrder cart name utr PaymentMethod.pay_online (some r) true true
        false).paymentAttempted.isSome = true ∧
     (V2.placeOrder cart name utr PaymentMethod.pay_online (some r) true true
        false).paymentInserted = none) ∧
    ((QRMenu.placeOrder qcart qname true false).reportedSuccess = true ∧
     (QRMenu.placeOrder qcart qname true false).navigatedToBill = true ∧
     (QRMenu.placeOrder qcart qname true false).orderInserted.isSome = true ∧
     (QRMenu.placeOrder qcart qname true false).billInserted = false ∧
     (QRMenu.placeOrder qcart qname true false).billFailureLogged = true) := by
  have h2 : ¬(PaymentMethod.pay_online = PaymentMethod.pay_online ∧
      strTrim utr = "") := by
    rintro ⟨-, hb⟩
    exact hutr hb
  simp_all [V1.placeOrder, V2.placeOrder, V2.failResult, QRMenu.placeOrder]

/-- C6 witness: concrete one-line carts with the dependent insert failing
in each flow. -/
theorem C6_dependent_failure_witness :
    (V1.placeOrder [line0] "Alice" true true true false).reportedSuccess = true ∧
    (V2.placeOrder [line0] "Alice" "U1" PaymentMethod.pay_online (some restA)
        true true false).paymentInserted = none ∧
    (QRMenu.placeOrder [qline0] "Bob" true false).billFailureLogged = true := by
  have h := C6_dependent_failure [line0] [qline0] "Alice" "U1" "Bob" restA
    (by decide) (by decide) (by decide) (by decide) (by decide)
  exact ⟨h.1.1, h.2.1.2.2.2.2, h.2.2.2.2.2.2⟩

/-- C2 counterexample: in the checkout implementation (part_000 lines
539-545), raising a quantity-1 line of unit price 10 to quantity 2 leaves
the stored line total at 10, not at unitPrice * qty = 20, so the claimed
recomputation of the stored line total does not happen there. -/
theorem C2_counterexample :
    (V2.updateCartItemQuantity [line0] "L1" 2).map CartItem.total = [10] ∧
    unitPrice line0 * 2 = 20 ∧ (10 : ℚ) ≠ 20 := by
  refine ⟨?_, ?_, ?_⟩
  · simp [V2.updateCartItemQuantity, line0]
  · norm_num [unitPrice, line0, addOnsTotal]
  · norm_num

/-- C2 amended: quantity at most 0 removes the line in both part_000
implementations while QRMenuPage.tsx removes only at exactly 0; for a
positive quantity the first part_000 implementation recomputes the stored
total to unitPrice * qty, the checkout implementation updates only the
quantity field and leaves the stored total at the unit price, and
QRMenuPage.tsx writes any nonzero quantity through, negative included,
together with total = unitPrice * qty. -/
theorem C2_quantity_update (cart : List CartItem) (qcart : List QRMenu.CartItem)
    (cid : String) (q0 q1 qn : ℤ)
    (h0 : q0 ≤ 0) (h1 : 0 < q1) (hn : qn ≠ 0) :
    (∀ item ∈ V1.updateCartItemQuantity cart cid q0, item.id ≠ cid) ∧
    (∀ item ∈ V2.updateCartItemQuantity cart cid q0, item.id ≠ cid) ∧
    V1.updateCartItemQuantity cart cid q1 =
      cart.map (fun item =>
        if item.id = cid then
          { item with quantity := q1, total := unitPrice item * (q1 : ℚ) }
        else item) ∧
    V2.updateCartItemQuantity cart cid q1 =
      cart.map (fun item =>
        if item.id = cid then { item with quantity := q1 } else item) ∧
    (∀ item ∈ QRMenu.updateCartItemQuantity qcart cid 0, item.id ≠ cid) ∧
    QRMenu.updateCartItemQuantity qcart cid qn =
      qcart.map (fun item =>
        if item.id = cid then
          { item with quantity := qn, total := QRMenu.lineUnitPrice item * (qn : ℚ) }
        else item) := by
  refine ⟨?_, ?_, ?_, ?_, ?_, ?_⟩
  · intro item hmem
    unfold V1.updateCartItemQuantity at hmem
    rw [if_pos h0] at hmem
    simpa using (List.mem_filter.mp hmem).2
  · intro item hmem
    unfold V2.updateCartItemQuantity at hmem
    rw [if_pos h0] at hmem
    simpa using (List.mem_filter.mp hmem).2
  · unfold V1.updateCartItemQuantity
    rw [if_neg (by omega)]
    rfl
  · unfold V2.updateCartItemQuantity
    rw [if_neg (by omega)]
  · intro item hmem
    unfold QRMenu.updateCartItemQuantity at hmem
    rw [if_pos rfl] at hmem
    simpa using (List.mem_filter.mp hmem).2
  · unfold QRMenu.updateCartItemQuantity
    rw [if_neg hn]
    rfl

/-- C2 witness: concrete quantity updates on the one-line carts. -/
theorem C2_quantity_update_witness :
    V1.updateCartItemQuantity [line0] "L1" 2 =
      [{ line0 with quantity := 2, total := unitPrice line0 * ((2 : ℤ) : ℚ) }] ∧
    V2.updateCartItemQuantity [line0] "L1" 2 = [{ line0 with quantity := 2 }] ∧
    QRMenu.updateCartItemQuantity [qline0] "L1" (-1) =
      [{ qline0 with
          quantity := -1, total := QRMenu.lineUnitPrice qline0 * (((-1 : ℤ)) : ℚ) }] := by
  have h := C2_quantity_update [line0] [qline0] "L1" 0 2 (-1)
    (by decide) (by decide) (by decide)
  refine ⟨?_, ?_, ?_⟩
  · rw [h.2.2.1]
    simp [line0]
  · rw [h.2.2.2.1]
    simp [line0]
  · rw [h.2.2.2.2.2]
    simp [qline0]

/-- C3 is violated by the first part_000 implementation: its quantity
update stores total = unitPrice * qty and its getCartTotal then multiplies
the stored total by the quantity again, so the cart holding one Burger
line of unit price 150 raised to quantity 2 yields a checkout subtotal of
600 while the sum of unitPrice * quantity over the lines is 300. -/
theorem C3_v1_subtotal_bug :
    (V1.handleAddToCart [] "L1" burger none []).selectedItemForVariants = none ∧
    V1.getCartTotal (V1.updateCartItemQuantity
      (V1.handleAddToCart [] "L1" burger none []).cart "L1" 2) = 600 ∧
    (V1.updateCartItemQuantity
      (V1.handleAddToCart [] "L1" burger none []).cart "L1" 2).map
        (fun item => unitPrice item * (item.quantity : ℚ)) = [300] := by
  refine ⟨rfl, ?_, ?_⟩
  · norm_num [V1.handleAddToCart, V1.updateCartItemQuantity, V1.getCartTotal,
      burger, hasVariants, addOnsTotal]
  · norm_num [V1.handleAddToCart, V1.updateCartItemQuantity, burger,
      hasVariants, addOnsTotal, unitPrice]

/-- C4 counterexample: the QRMenuPage.tsx add button passes no variant
and its addToCart performs no variant check, so adding the
variant-declaring Pizza item creates a base-priced cart line instead of
leaving the cart unchanged. -/
theorem C4_counterexample :
    hasVariants pizzaWithVariants = true ∧
    (QRMenu.addToCartButton [] "L1" pizzaWithVariants).length = 1 ∧
    (QRMenu.addToCartButton [] "L1" pizzaWithVariants).map
      QRMenu.CartItem.price = [100] := by decide

/-- C4 amended: in both part_000 implementations an add-to-cart request
for a variant-declaring item without a chosen variant creates no line and
signals that variant selection is required, leaving the cart unchanged;
the QRMenuPage.tsx addToCart performs no such check and always appends a
line, priced at the base price when no variant is passed. -/
theorem C4_variant_required (cart : List CartItem) (fid : String)
    (item : MenuItem) (addOns : List AddOn)
    (qcart : List QRMenu.CartItem) (qfid : String) (qitem : MenuItem)
    (h : hasVariants item = true) :
    V1.handleAddToCart cart fid item none addOns =
      { cart := cart, selectedItemForVariants := some item } ∧
    V2.handleAddToCart cart fid item none addOns =
      { cart := cart, selectedItemForVariants := some item } ∧
    (QRMenu.addToCartButton qcart qfid qitem).length = qcart.length + 1 ∧
    (QRMenu.addToCartButton qcart qfid qitem).map QRMenu.CartItem.price =
      qcart.map QRMenu.CartItem.price ++ [qitem.price] := by
  refine ⟨?_, ?_, ?_, ?_⟩
  · unfold V1.handleAddToCart
    rw [if_pos ⟨h, rfl⟩]
  · unfold V2.handleAddToCart
    rw [if_pos ⟨h, rfl⟩]
  · simp [QRMenu.addToCartButton, QRMenu.addToCart]
  · simp [QRMenu.addToCartButton, QRMenu.addToCart]

/-- C4 witness: the add of the variant-declaring Pizza without a variant,
blocked by both part_000 implementations and not by QRMenuPage.tsx. -/
theorem C4_variant_required_witness :
    V1.handleAddToCart [] "L1" pizzaWithVariants none [] =
      { cart := [], selectedItemForVariants := some pizzaWithVariants } ∧
    (QRMenu.addToCartButton [] "L1" pizzaWithVariants).length = 0 + 1 := by
  have h := C4_variant_required [] "L1" pizzaWithVariants [] [] "L1"
    pizzaWithVariants (by decide)
  exact ⟨h.1, by simpa using h.2.2.1⟩

/-- C7 counterexample: the staff status dropdown offers every status for
every order row and handleStatusChange applies the selection
unconditionally, so a completed order is moved straight back to pending
through the exposed interface, contradicting forward-only progression
with completed terminal. -/
theorem C7_counterexample :
    "pending" ∈ OrdersPage.orderStatuses ∧
    OrdersPage.handleStatusChange [("o1", "completed")] "o1" "pending" =
      [("o1", "pending")] := by decide

/-- C7 amended: a staff status update sets the selected order row to the
chosen dropdown value with no constraint relating it to the current
status - any of the six listed statuses is settable from any current
status, backward moves and moves out of completed or cancelled included -
while every other order row is left unchanged. -/
theorem C7_status_change_unconstrained (rest : List (String × String))
    (oid s t : String) (_ht : t ∈ OrdersPage.orderStatuses) :
    OrdersPage.handleStatusChange ((oid, s) :: rest) oid t =
      (oid, t) :: OrdersPage.handleStatusChange rest oid t ∧
    ∀ o ∈ rest, o.1 ≠ oid → o ∈ OrdersPage.handleStatusChange rest oid t := by
  constructor
  · simp [OrdersPage.handleStatusChange]
  · intro o ho hne
    exact List.mem_map.mpr ⟨o, ho, by rw [if_neg hne]⟩

/-- C7 witness: the completed order o1 is set back to pending while the
unrelated row o2 is untouched. -/
theorem C7_status_change_witness :
    OrdersPage.handleStatusChange [("o1", "completed"), ("o2", "served")]
        "o1" "pending" =
      ("o1", "pending") ::
        OrdersPage.handleStatusChange [("o2", "served")] "o1" "pending" :=
  (C7_status_change_unconstrained [("o2", "served")] "o1" "completed" "pending"
    (by decide)).1

/-- C10: every add-to-cart that is not blocked by the variant guard
appends exactly one fresh line with quantity 1 at the end of the cart,
leaving all existing lines unchanged; selections are never merged, so
adding twice always grows the cart by two distinct lines. -/
theorem C10_add_appends (cart : List CartItem) (fid fid2 : String)
    (item : MenuItem) (variant : Option Variant) (addOns : List AddOn)
    (qcart : List QRMenu.CartItem) (qfid : String) (qitem : MenuItem)
    (qvariant : Option Variant) (qaddOns : List AddOn)
    (h : ¬(hasVariants item = true ∧ variant = none)) :
    (∃ line, (V1.handleAddToCart cart fid item variant addOns).cart =
        cart ++ [line] ∧ line.quantity = 1) ∧
    (∃ line, (V2.handleAddToCart cart fid item variant addOns).cart =
        cart ++ [line] ∧ line.quantity = 1) ∧
    ((V1.handleAddToCart (V1.handleAddToCart cart fid item variant addOns).cart
        fid2 item variant addOns).cart).length = cart.length + 2 ∧
    (∃ line, QRMenu.addToCart qcart qfid qitem qvariant qaddOns =
        qcart ++ [line] ∧ line.quantity = 1) := by
  refine ⟨?_, ?_, ?_, ?_⟩
  · unfold V1.handleAddToCart
    rw [if_neg h]
    exact ⟨_, rfl, rfl⟩
  · unfold V2.handleAddToCart
    rw [if_neg h]
    exact ⟨_, rfl, rfl⟩
  · unfold V1.handleAddToCart
    rw [if_neg h, if_neg h]
    simp
  · exact ⟨_, rfl, rfl⟩

/-- C10 witness: two successive adds of the variant-free Burger grow the
empty cart to two lines. -/
theorem C10_add_appends_witness :
    ((V1.handleAddToCart (V1.handleAddToCart [] "a" burger none []).cart
        "b" burger none []).cart).length = ([] : List CartItem).length + 2 :=
  (C10_add_appends [] "a" "b" burger none [] [] "q" burger none []
    (by decide)).2.2.1

end Diningcloud
